import Mathlib

/-!
Shallow embedding of `part3/01-fastapi/app/main.py`.

Modelling choices:
* UUIDs are modelled as `Nat` (opaque identifiers); fresh generation is made
  explicit by passing the generated identifier(s) as arguments.
* `datetime` timestamps are modelled as `Nat`; each call to `datetime.now()`
  is modelled by an explicit clock argument `now`.
* `float` prices are modelled as `Rat`.
* `InferenceImageProduct` subclasses `Product` adding an optional `result`
  field; the embedding gives `Product` the optional `result` directly
  (plain products carry `none`).
* The global mutable list `orders` is modelled by explicit state passing:
  each store-touching operation takes the store and returns the new store.
* The external collaborator `predict_from_image_byte` (from `app.model`,
  an external boundary per the system description) is an opaque parameter
  `classify` returning `Except`: `.error` models a raised exception.
-/

/-- `class Product(BaseModel)`: `id : UUID`, `name : str`, `price : float`;
the `result` field comes from the subclass `InferenceImageProduct` and is
`none` for plain products. -/
structure Product where
  id : Nat
  name : String
  price : Rat
  result : Option (List String) := none
deriving DecidableEq, Repr

/-- `class Order(BaseModel)`: `id : UUID`, `products : List[Product]`,
`created_at`, `updated_at`. -/
structure Order where
  id : Nat
  products : List Product
  created_at : Nat
  updated_at : Nat
deriving DecidableEq, Repr

/-- `Order.bill`: `sum([product.price for product in self.products])`. -/
def Order.bill (o : Order) : Rat :=
  (o.products.map Product.price).sum

/-- `Order.add_product`: if `product.id in [existing_product.id for
existing_product in self.products]` return `self` unchanged, else append
the product and set `updated_at = datetime.now()` (the clock argument). -/
def Order.add_product (o : Order) (p : Product) (now : Nat) : Order :=
  if p.id ∈ o.products.map Product.id then o
  else { o with products := o.products ++ [p], updated_at := now }

/-- Explicit construction `Order(products=ps)`: fresh id `oid` (uuid4),
`created_at` and `updated_at` from `datetime.now()` (the clock argument). -/
def Order.new (oid : Nat) (ps : List Product) (now : Nat) : Order :=
  { id := oid, products := ps, created_at := now, updated_at := now }

/-- Whether no two products of the order share an `id`. -/
def Order.nodup_ids (o : Order) : Prop :=
  (o.products.map Product.id).Nodup

instance (o : Order) : Decidable o.nodup_ids := by
  unfold Order.nodup_ids; infer_instance

/-- `InferenceImageProduct(result=r)`: a `Product` with a fresh id `pid`,
fixed `name = "inference_image_product"` and fixed `price = 100.0`. -/
def InferenceImageProduct (pid : Nat) (r : Option (List String)) : Product :=
  { id := pid, name := "inference_image_product", price := 100, result := r }

/-- `get_order_by_id`: `next((order for order in orders if order.id ==
order_id), None)` — first match of a linear scan, or `None`. -/
def get_order_by_id : List Order → Nat → Option Order
  | [], _ => none
  | o :: os, oid => if o.id = oid then some o else get_order_by_id os oid

/-- In-place mutation of the first stored order whose id matches, modelled
as replacement at that position (`existing_order` aliases the stored
element, so mutating it mutates the store at the position the scan found). -/
def replace_first : List Order → Nat → Order → List Order
  | [], _, _ => []
  | o :: os, oid, o' => if o.id = oid then o' :: os else o :: replace_first os oid o'

/-- The loop of `update_order_by_id`: `for next_product in
order_update.products: updated_order = existing_order.add_product(...)`.
Each iteration mutates the same order; the `datetime.now()` of the
iterations is modelled by the single clock argument `now`. -/
def apply_update (o : Order) (ps : List Product) (now : Nat) : Order :=
  ps.foldl (fun acc p => acc.add_product p now) o

/-- `update_order_by_id`: look up the order; if absent return `None` with
the store untouched; otherwise fold `add_product` over the supplied
products on the stored order (the discarded `existing_order.copy()` of the
source is value-equal to the stored order and is overwritten whenever the
product list is non-empty, so the returned value is the folded order) and
return the new store plus the updated order. -/
def update_order_by_id (orders : List Order) (oid : Nat) (ps : List Product)
    (now : Nat) : List Order × Option Order :=
  match get_order_by_id orders oid with
  | none => (orders, none)
  | some o =>
    let o' := apply_update o ps now
    (replace_first orders oid o', some o')

/-- The product-building loop of `make_order`: for each file, read bytes
and call `predict_from_image_byte` (opaque `classify`; `.error` models a
raised exception, which propagates and aborts the loop), then wrap the
result in `InferenceImageProduct` with a fresh uuid (`fresh k` is the k-th
generated id of the request). -/
def make_order_products {β : Type} (classify : β → Except String (List String))
    (fresh : Nat → Nat) (k : Nat) : List β → Except String (List Product)
  | [] => .ok []
  | f :: fs =>
    match classify f with
    | .error e => .error e
    | .ok r =>
      match make_order_products classify fresh (k + 1) fs with
      | .error e => .error e
      | .ok ps => .ok (InferenceImageProduct (fresh k) (some r) :: ps)

/-- `make_order` (POST /order): build the products from the uploaded
files; on success construct `Order(products=products)` and append it to
the store; a classification failure propagates (it is not caught) and the
store is left unchanged, since `orders.append` only runs after the loop. -/
def make_order {β : Type} (classify : β → Except String (List String))
    (fresh : Nat → Nat) (oid now : Nat) (orders : List Order) (files : List β) :
    List Order × Except String Order :=
  match make_order_products classify fresh 0 files with
  | .error e => (orders, .error e)
  | .ok ps =>
    let new_order := Order.new oid ps now
    (orders ++ [new_order], .ok new_order)

/-- The literal not-found body string of the source:
`{"message": "주문 정보를 찾을 수 없습니다"}`. -/
def not_found_message : String := "주문 정보를 찾을 수 없습니다"

/-- A handler response body: an order, the order list, a bill amount, or a
structured message record. -/
inductive Body where
  | order : Order → Body
  | orderList : List Order → Body
  | billAmount : Rat → Body
  | message : String → Body
deriving DecidableEq, Repr

/-- `get_order` (GET /order/{order_id}): return the order found by
`get_order_by_id`, or the structured message body; either way a plain
return, which FastAPI serves with status 200. -/
def get_order_handler (orders : List Order) (oid : Nat) : Nat × Body :=
  match get_order_by_id orders oid with
  | none => (200, Body.message not_found_message)
  | some o => (200, Body.order o)

/-- `update_order` (PATCH /order/{order_id}): run `update_order_by_id`; on
`None` return the structured message body, else the updated order; both
are plain returns served with status 200. -/
def update_order_handler (orders : List Order) (oid : Nat) (ps : List Product)
    (now : Nat) : List Order × (Nat × Body) :=
  match update_order_by_id orders oid ps now with
  | (store, none) => (store, (200, Body.message not_found_message))
  | (store, some o) => (store, (200, Body.order o))

/-- `get_bill` (GET /bill/{order_id}): return `found_order.bill`, or the
structured message body; both plain returns served with status 200. -/
def get_bill_handler (orders : List Order) (oid : Nat) : Nat × Body :=
  match get_order_by_id orders oid with
  | none => (200, Body.message not_found_message)
  | some o => (200, Body.billAmount o.bill)

/-! ## Helper lemmas -/

theorem add_product_mem (o : Order) (p : Product) (t : Nat)
    (h : p.id ∈ o.products.map Product.id) : o.add_product p t = o := by
  simp [Order.add_product, h]

theorem add_product_not_mem (o : Order) (p : Product) (t : Nat)
    (h : p.id ∉ o.products.map Product.id) :
    o.add_product p t = { o with products := o.products ++ [p], updated_at := t } := by
  simp [Order.add_product, h]

theorem add_product_id (o : Order) (p : Product) (t : Nat) :
    (o.add_product p t).id = o.id := by
  unfold Order.add_product
  split <;> rfl

/-! ## Claims -/

/-- Claim C1: `add_product` is idempotent — adding a product whose id
already occurs among `order.products` returns the order unchanged (same
products, same `updated_at`), and a second `add_product` with the same
product is the identity, so `updated_at` changes at most on the first
call. -/
theorem claim_add_product_idempotent (o : Order) (p : Product) (t1 t2 : Nat) :
    (p.id ∈ o.products.map Product.id → o.add_product p t1 = o) ∧
    (o.add_product p t1).add_product p t2 = o.add_product p t1 := by
  constructor
  · intro h
    exact add_product_mem o p t1 h
  · by_cases h : p.id ∈ o.products.map Product.id
    · rw [add_product_mem o p t1 h, add_product_mem o p t2 h]
    · rw [add_product_not_mem o p t1 h]
      apply add_product_mem
      simp

/-- Witness for C1 at a concrete order and product. -/
theorem claim_add_product_idempotent_witness :
    ((⟨5, "x", 10, none⟩ : Product).id ∈
      (Order.mk 0 [⟨5, "x", 10, none⟩] 0 0).products.map Product.id ∧
      (Order.mk 0 [⟨5, "x", 10, none⟩] 0 0).add_product ⟨5, "x", 10, none⟩ 1 =
        Order.mk 0 [⟨5, "x", 10, none⟩] 0 0) ∧
    ((Order.mk 0 [⟨5, "x", 10, none⟩] 0 0).add_product ⟨5, "x", 10, none⟩ 1).add_product
        ⟨5, "x", 10, none⟩ 2 =
      (Order.mk 0 [⟨5, "x", 10, none⟩] 0 0).add_product ⟨5, "x", 10, none⟩ 1 :=
  ⟨⟨by decide,
    (claim_add_product_idempotent (Order.mk 0 [⟨5, "x", 10, none⟩] 0 0)
      ⟨5, "x", 10, none⟩ 1 2).1 (by decide)⟩,
   (claim_add_product_idempotent (Order.mk 0 [⟨5, "x", 10, none⟩] 0 0)
      ⟨5, "x", 10, none⟩ 1 2).2⟩

/-- Claim C2: `bill` equals the sum of `price` over the current products,
is `0` for an order with an empty products list, and is recomputed from
the current products on every read (it depends on nothing but
`products`). -/
theorem claim_bill_correct (o o' : Order) (oid c : Nat) :
    o.bill = (o.products.map Product.price).sum ∧
    (Order.new oid [] c).bill = 0 ∧
    (o.products = o'.products → o.bill = o'.bill) := by
  refine ⟨rfl, rfl, fun h => ?_⟩
  simp [Order.bill, h]

/-- Witness for C2 at concrete orders sharing a products list. -/
theorem claim_bill_correct_witness :
    (Order.mk 0 [⟨1, "a", 10, none⟩] 0 0).bill =
      ([(⟨1, "a", 10, none⟩ : Product)].map Product.price).sum ∧
    (Order.new 3 [] 7).bill = 0 ∧
    ((Order.mk 0 [⟨1, "a", 10, none⟩] 0 0).products =
      (Order.mk 9 [⟨1, "a", 10, none⟩] 2 5).products ∧
     (Order.mk 0 [⟨1, "a", 10, none⟩] 0 0).bill =
      (Order.mk 9 [⟨1, "a", 10, none⟩] 2 5).bill) :=
  ⟨(claim_bill_correct (Order.mk 0 [⟨1, "a", 10, none⟩] 0 0)
      (Order.mk 9 [⟨1, "a", 10, none⟩] 2 5) 3 7).1,
   (claim_bill_correct (Order.mk 0 [⟨1, "a", 10, none⟩] 0 0)
      (Order.mk 9 [⟨1, "a", 10, none⟩] 2 5) 3 7).2.1,
   ⟨rfl, (claim_bill_correct (Order.mk 0 [⟨1, "a", 10, none⟩] 0 0)
      (Order.mk 9 [⟨1, "a", 10, none⟩] 2 5) 3 7).2.2 rfl⟩⟩

/-- Claim C7: when the product id does not yet occur, `add_product`
appends the product at the end (prior products unchanged, in place), sets
`updated_at` to the current time, and leaves `id` and `created_at`
untouched. -/
theorem claim_add_product_append (o : Order) (p : Product) (now : Nat)
    (h : p.id ∉ o.products.map Product.id) :
    (o.add_product p now).products = o.products ++ [p] ∧
    (o.add_product p now).updated_at = now ∧
    (o.add_product p now).id = o.id ∧
    (o.add_product p now).created_at = o.created_at := by
  rw [add_product_not_mem o p now h]
  exact ⟨rfl, rfl, rfl, rfl⟩

/-- Witness for C7 at a concrete order and fresh product. -/
theorem claim_add_product_append_witness :
    (⟨5, "y", 20, none⟩ : Product).id ∉
      (Order.mk 0 [⟨1, "a", 10, none⟩] 0 0).products.map Product.id ∧
    ((Order.mk 0 [⟨1, "a", 10, none⟩] 0 0).add_product ⟨5, "y", 20, none⟩ 4).products =
      [⟨1, "a", 10, none⟩] ++ [⟨5, "y", 20, none⟩] ∧
    ((Order.mk 0 [⟨1, "a", 10, none⟩] 0 0).add_product ⟨5, "y", 20, none⟩ 4).updated_at = 4 ∧
    ((Order.mk 0 [⟨1, "a", 10, none⟩] 0 0).add_product ⟨5, "y", 20, none⟩ 4).id = 0 ∧
    ((Order.mk 0 [⟨1, "a", 10, none⟩] 0 0).add_product ⟨5, "y", 20, none⟩ 4).created_at = 0 :=
  ⟨by decide,
   claim_add_product_append (Order.mk 0 [⟨1, "a", 10, none⟩] 0 0)
     ⟨5, "y", 20, none⟩ 4 (by decide)⟩

theorem get_order_by_id_none_of_absent {orders : List Order} {oid : Nat}
    (h : ∀ o ∈ orders, o.id ≠ oid) : get_order_by_id orders oid = none := by
  induction orders with
  | nil => rfl
  | cons o os ih =>
    have ho : o.id ≠ oid := h o (List.mem_cons_self o os)
    simp only [get_order_by_id, if_neg ho]
    exact ih fun x hx => h x (List.mem_cons_of_mem _ hx)

theorem get_order_by_id_some {orders : List Order} {oid : Nat} {o : Order}
    (h : get_order_by_id orders oid = some o) : o.id = oid ∧ o ∈ orders := by
  induction orders with
  | nil => simp [get_order_by_id] at h
  | cons x xs ih =>
    by_cases hx : x.id = oid
    · simp only [get_order_by_id, if_pos hx] at h
      cases h
      exact ⟨hx, List.mem_cons_self _ _⟩
    · simp only [get_order_by_id, if_neg hx] at h
      obtain ⟨h1, h2⟩ := ih h
      exact ⟨h1, List.mem_cons_of_mem _ h2⟩

theorem get_order_by_id_append_self (orders : List Order) (o : Order) :
    (get_order_by_id (orders ++ [o]) o.id).map Order.id = some o.id := by
  induction orders with
  | nil => simp [get_order_by_id]
  | cons x xs ih =>
    by_cases hx : x.id = o.id
    · simp [get_order_by_id, if_pos hx, hx]
    · simpa [get_order_by_id, if_neg hx] using ih

theorem get_order_by_id_first_match (l1 : List Order) (o : Order) (l2 : List Order)
    (h : ∀ x ∈ l1, x.id ≠ o.id) :
    get_order_by_id (l1 ++ o :: l2) o.id = some o := by
  induction l1 with
  | nil => simp [get_order_by_id]
  | cons x xs ih =>
    have hx : x.id ≠ o.id := h x (List.mem_cons_self x xs)
    simp only [List.cons_append, get_order_by_id, if_neg hx]
    exact ih fun y hy => h y (List.mem_cons_of_mem _ hy)

/-- Claim C3: `update_by_id` on an absent identifier returns not-found and
leaves the store completely unchanged, whatever the supplied product
list. -/
theorem claim_update_not_found (orders : List Order) (oid : Nat)
    (ps : List Product) (now : Nat) (h : ∀ o ∈ orders, o.id ≠ oid) :
    update_order_by_id orders oid ps now = (orders, none) := by
  unfold update_order_by_id
  rw [get_order_by_id_none_of_absent h]

/-- Witness for C3 on a concrete store with no matching order. -/
theorem claim_update_not_found_witness :
    (∀ o ∈ [Order.mk 1 [] 0 0, Order.mk 2 [⟨7, "a", 5, none⟩] 0 0], o.id ≠ 9) ∧
    update_order_by_id [Order.mk 1 [] 0 0, Order.mk 2 [⟨7, "a", 5, none⟩] 0 0] 9
        [⟨7, "a", 5, none⟩] 3 =
      ([Order.mk 1 [] 0 0, Order.mk 2 [⟨7, "a", 5, none⟩] 0 0], none) :=
  ⟨by decide,
   claim_update_not_found [Order.mk 1 [] 0 0, Order.mk 2 [⟨7, "a", 5, none⟩] 0 0]
     9 [⟨7, "a", 5, none⟩] 3 (by decide)⟩

/-- Claim C8: after appending an order, `find_by_id` with its id returns
an order with the identical id; for an identifier matching no stored
order, it returns not-found; the lookup is a linear scan in store order
and the first match wins. -/
theorem claim_lookup_correct (orders : List Order) (oid : Nat) (o : Order)
    (l1 l2 : List Order) :
    (get_order_by_id (orders ++ [o]) o.id).map Order.id = some o.id ∧
    ((∀ x ∈ orders, x.id ≠ oid) → get_order_by_id orders oid = none) ∧
    ((∀ x ∈ l1, x.id ≠ o.id) → get_order_by_id (l1 ++ o :: l2) o.id = some o) :=
  ⟨get_order_by_id_append_self orders o,
   fun h => get_order_by_id_none_of_absent h,
   fun h => get_order_by_id_first_match l1 o l2 h⟩

/-- Witness for C8 on a concrete store, absent id, and first-match split. -/
theorem claim_lookup_correct_witness :
    (get_order_by_id ([Order.mk 1 [] 0 0] ++ [Order.mk 2 [] 0 0]) 2).map Order.id =
      some 2 ∧
    ((∀ x ∈ [Order.mk 1 [] 0 0], x.id ≠ 9) ∧
      get_order_by_id [Order.mk 1 [] 0 0] 9 = none) ∧
    ((∀ x ∈ [Order.mk 1 [] 0 0], x.id ≠ 2) ∧
      get_order_by_id ([Order.mk 1 [] 0 0] ++ Order.mk 2 [] 0 0 :: [Order.mk 2 [⟨3, "b", 1, none⟩] 4 4]) 2 =
        some (Order.mk 2 [] 0 0)) :=
  ⟨(claim_lookup_correct [Order.mk 1 [] 0 0] 9 (Order.mk 2 [] 0 0)
      [Order.mk 1 [] 0 0] [Order.mk 2 [⟨3, "b", 1, none⟩] 4 4]).1,
   ⟨by decide,
    (claim_lookup_correct [Order.mk 1 [] 0 0] 9 (Order.mk 2 [] 0 0)
      [Order.mk 1 [] 0 0] [Order.mk 2 [⟨3, "b", 1, none⟩] 4 4]).2.1 (by decide)⟩,
   ⟨by decide,
    (claim_lookup_correct [Order.mk 1 [] 0 0] 9 (Order.mk 2 [] 0 0)
      [Order.mk 1 [] 0 0] [Order.mk 2 [⟨3, "b", 1, none⟩] 4 4]).2.2 (by decide)⟩⟩

theorem apply_update_id (o : Order) (ps : List Product) (t : Nat) :
    (apply_update o ps t).id = o.id := by
  induction ps generalizing o with
  | nil => rfl
  | cons p ps ih =>
    show (apply_update (o.add_product p t) ps t).id = o.id
    rw [ih, add_product_id]

theorem get_order_by_id_replace_first {orders : List Order} {oid : Nat}
    {o : Order} (o' : Order) (h : get_order_by_id orders oid = some o)
    (ho' : o'.id = oid) :
    get_order_by_id (replace_first orders oid o') oid = some o' := by
  induction orders with
  | nil => simp [get_order_by_id] at h
  | cons x xs ih =>
    by_cases hx : x.id = oid
    · simp [replace_first, if_pos hx, get_order_by_id, ho']
    · simp only [get_order_by_id, if_neg hx] at h
      simp only [replace_first, if_neg hx, get_order_by_id]
      exact ih h

/-- Claim C4: when the identifier is found, `update_by_id` applies
`add_product` for each supplied product sequentially to the stored order
(a left fold), returns that final order, and the store afterwards holds
that same final order under the identifier (the in-place mutation). -/
theorem claim_update_found_semantics (orders : List Order) (oid : Nat)
    (ps : List Product) (now : Nat) (o : Order)
    (h : get_order_by_id orders oid = some o) :
    (update_order_by_id orders oid ps now).2 = some (apply_update o ps now) ∧
    get_order_by_id (update_order_by_id orders oid ps now).1 oid =
      some (apply_update o ps now) := by
  have hid : o.id = oid := (get_order_by_id_some h).1
  unfold update_order_by_id
  rw [h]
  refine ⟨rfl, ?_⟩
  exact get_order_by_id_replace_first _ h (by rw [apply_update_id, hid])

/-- Witness for C4 on a concrete store and product list. -/
theorem claim_update_found_semantics_witness :
    get_order_by_id [Order.mk 1 [] 0 0] 1 = some (Order.mk 1 [] 0 0) ∧
    (update_order_by_id [Order.mk 1 [] 0 0] 1 [⟨7, "a", 5, none⟩] 3).2 =
      some (apply_update (Order.mk 1 [] 0 0) [⟨7, "a", 5, none⟩] 3) ∧
    get_order_by_id (update_order_by_id [Order.mk 1 [] 0 0] 1 [⟨7, "a", 5, none⟩] 3).1 1 =
      some (apply_update (Order.mk 1 [] 0 0) [⟨7, "a", 5, none⟩] 3) :=
  ⟨by decide,
   claim_update_found_semantics [Order.mk 1 [] 0 0] 1 [⟨7, "a", 5, none⟩] 3
     (Order.mk 1 [] 0 0) (by decide)⟩

theorem make_order_products_error {β : Type}
    (classify : β → Except String (List String)) (fresh : Nat → Nat) (k : Nat)
    (files : List β) (h : ∃ f ∈ files, ∃ e, classify f = .error e) :
    ∃ e, make_order_products classify fresh k files = .error e := by
  induction files generalizing k with
  | nil => simp at h
  | cons f fs ih =>
    obtain ⟨g, hg, e, he⟩ := h
    rcases List.mem_cons.mp hg with rfl | hg'
    · exact ⟨e, by simp [make_order_products, he]⟩
    · cases hc : classify f with
      | error e' => exact ⟨e', by simp [make_order_products, hc]⟩
      | ok r =>
        obtain ⟨e2, he2⟩ := ih (k + 1) ⟨g, hg', e, he⟩
        exact ⟨e2, by simp [make_order_products, hc, he2]⟩

/-- Claim C5: if classification fails on any uploaded file, the failure
propagates out of `make_order` (it is not caught) and the store is left
unchanged — no order, partial or otherwise, is appended, and nothing is
retried. -/
theorem claim_creation_failure_atomic {β : Type}
    (classify : β → Except String (List String)) (fresh : Nat → Nat)
    (oid now : Nat) (orders : List Order) (files : List β)
    (h : ∃ f ∈ files, ∃ e, classify f = .error e) :
    ∃ e, make_order classify fresh oid now orders files = (orders, .error e) := by
  obtain ⟨e, he⟩ := make_order_products_error classify fresh 0 files h
  exact ⟨e, by simp [make_order, he]⟩

/-- A concrete classification function that fails on file `0`. -/
def classify_fail : Nat → Except String (List String) :=
  fun b => if b = 0 then .error "bad image" else .ok ["cat"]

/-- Witness for C5: a two-file request whose second file fails to
classify aborts with the store unchanged. -/
theorem claim_creation_failure_atomic_witness :
    (∃ f ∈ [1, 0], ∃ e, classify_fail f = .error e) ∧
    ∃ e, make_order classify_fail (fun k => k) 9 3 [Order.mk 4 [] 0 0] [1, 0] =
      ([Order.mk 4 [] 0 0], .error e) :=
  ⟨⟨0, by decide, "bad image", rfl⟩,
   claim_creation_failure_atomic classify_fail (fun k => k) 9 3
     [Order.mk 4 [] 0 0] [1, 0] ⟨0, by decide, "bad image", rfl⟩⟩

theorem make_order_products_ok {β : Type}
    (classify : β → Except String (List String)) (fresh : Nat → Nat) (k : Nat)
    (files : List β) (ps : List Product)
    (h : make_order_products classify fresh k files = .ok ps) :
    ps.length = files.length ∧
    ∀ p ∈ ps, p.name = "inference_image_product" ∧ p.price = 100 := by
  induction files generalizing k ps with
  | nil =>
    simp only [make_order_products] at h
    cases h
    simp
  | cons f fs ih =>
    simp only [make_order_products] at h
    cases hc : classify f with
    | error e => rw [hc] at h; simp at h
    | ok r =>
      rw [hc] at h
      cases hrec : make_order_products classify fresh (k + 1) fs with
      | error e => rw [hrec] at h; simp at h
      | ok ps2 =>
        rw [hrec] at h
        cases h
        obtain ⟨h1, h2⟩ := ih (k + 1) ps2 hrec
        refine ⟨by simp [h1], fun p hp => ?_⟩
        rcases List.mem_cons.mp hp with rfl | hp'
        · exact ⟨rfl, rfl⟩
        · exact h2 p hp'

theorem price_sum_const (ps : List Product)
    (h : ∀ p ∈ ps, p.price = 100) :
    (ps.map Product.price).sum = 100 * (ps.length : Rat) := by
  induction ps with
  | nil => simp
  | cons p ps ih =>
    simp only [List.map_cons, List.sum_cons, List.length_cons]
    rw [h p (List.mem_cons_self _ _), ih fun q hq => h q (List.mem_cons_of_mem _ hq)]
    push_cast
    ring

/-- Claim C10: every product created by the order-creation handler has the
fixed name `"inference_image_product"` and fixed price `100`, so the bill
of a freshly created order from `n` files is `100 * n`. -/
theorem claim_inference_product_fixed {β : Type}
    (classify : β → Except String (List String)) (fresh : Nat → Nat)
    (oid now : Nat) (orders store2 : List Order) (files : List β) (o : Order)
    (h : make_order classify fresh oid now orders files = (store2, .ok o)) :
    (∀ p ∈ o.products, p.name = "inference_image_product" ∧ p.price = 100) ∧
    o.bill = 100 * (files.length : Rat) := by
  simp only [make_order] at h
  cases hmp : make_order_products classify fresh 0 files with
  | error e => rw [hmp] at h; simp at h
  | ok ps =>
    rw [hmp] at h
    have ho : o = Order.new oid ps now := by
      have := congrArg Prod.snd h
      simpa using this.symm
    obtain ⟨h1, h2⟩ := make_order_products_ok classify fresh 0 files ps hmp
    subst ho
    refine ⟨fun p hp => h2 p hp, ?_⟩
    show (ps.map Product.price).sum = 100 * (files.length : Rat)
    rw [price_sum_const ps fun p hp => (h2 p hp).2, h1]

/-- A concrete classification function that always succeeds. -/
def classify_ok : Nat → Except String (List String) :=
  fun _ => .ok ["cat"]

/-- Witness for C10: a two-file request produces two fixed-price products
with a bill of 200. -/
theorem claim_inference_product_fixed_witness :
    make_order classify_ok (fun k => k) 5 3 [] [1, 2] =
      ([Order.new 5 [InferenceImageProduct 0 (some ["cat"]),
        InferenceImageProduct 1 (some ["cat"])] 3],
       .ok (Order.new 5 [InferenceImageProduct 0 (some ["cat"]),
        InferenceImageProduct 1 (some ["cat"])] 3)) ∧
    ((∀ p ∈ (Order.new 5 [InferenceImageProduct 0 (some ["cat"]),
        InferenceImageProduct 1 (some ["cat"])] 3).products,
      p.name = "inference_image_product" ∧ p.price = 100) ∧
     (Order.new 5 [InferenceImageProduct 0 (some ["cat"]),
        InferenceImageProduct 1 (some ["cat"])] 3).bill =
       100 * (([1, 2] : List Nat).length : Rat)) :=
  ⟨rfl,
   claim_inference_product_fixed classify_ok (fun k => k) 5 3 []
     [Order.new 5 [InferenceImageProduct 0 (some ["cat"]),
        InferenceImageProduct 1 (some ["cat"])] 3]
     [1, 2]
     (Order.new 5 [InferenceImageProduct 0 (some ["cat"]),
        InferenceImageProduct 1 (some ["cat"])] 3)
     rfl⟩

/-- Counterexample for C6: at the concrete absent identifier `0` in an
empty store, the handler's structured message body carries the literal
source string `"주문 정보를 찾을 수 없습니다"`, which is not the claimed body
`{message: "order not found"}`. -/
theorem claim_not_found_text_counterexample :
    get_order_handler [] 0 = (200, Body.message "주문 정보를 찾을 수 없습니다") ∧
    Body.message "주문 정보를 찾을 수 없습니다" ≠ Body.message "order not found" :=
  ⟨rfl, by decide⟩

/-- Amended C6: for an identifier with no match, GET /order/{order_id},
PATCH /order/{order_id} and GET /bill/{order_id} all return a normal
200-status response whose body is the structured message record with the
source's literal not-found string (`"주문 정보를 찾을 수 없습니다"`), not a
thrown error and not an HTTP error status. -/
theorem claim_not_found_contract (orders : List Order) (oid : Nat)
    (ps : List Product) (now : Nat) (h : ∀ o ∈ orders, o.id ≠ oid) :
    get_order_handler orders oid = (200, Body.message not_found_message) ∧
    (update_order_handler orders oid ps now).2 = (200, Body.message not_found_message) ∧
    get_bill_handler orders oid = (200, Body.message not_found_message) := by
  have hn : get_order_by_id orders oid = none := get_order_by_id_none_of_absent h
  have hu : update_order_by_id orders oid ps now = (orders, none) := by
    unfold update_order_by_id
    rw [hn]
  refine ⟨?_, ?_, ?_⟩ <;>
    simp [get_order_handler, update_order_handler, get_bill_handler, hn, hu]

/-- Witness for amended C6 on a concrete store with no matching order. -/
theorem claim_not_found_contract_witness :
    (∀ o ∈ [Order.mk 1 [] 0 0], o.id ≠ 9) ∧
    get_order_handler [Order.mk 1 [] 0 0] 9 = (200, Body.message not_found_message) ∧
    (update_order_handler [Order.mk 1 [] 0 0] 9 [⟨7, "a", 5, none⟩] 3).2 =
      (200, Body.message not_found_message) ∧
    get_bill_handler [Order.mk 1 [] 0 0] 9 = (200, Body.message not_found_message) :=
  ⟨by decide,
   claim_not_found_contract [Order.mk 1 [] 0 0] 9 [⟨7, "a", 5, none⟩] 3 (by decide)⟩

/-- Counterexample for C9: an order explicitly pre-populated with an
initial product sequence whose two entries share id `1` violates the
no-duplicate-id invariant — the constructor performs no deduplication. -/
theorem claim_nodup_counterexample :
    ¬ (Order.new 7 [⟨1, "a", 2, none⟩, ⟨1, "b", 3, none⟩] 0).nodup_ids := by
  decide

theorem add_product_nodup (o : Order) (p : Product) (t : Nat)
    (h : o.nodup_ids) : (o.add_product p t).nodup_ids := by
  by_cases hm : p.id ∈ o.products.map Product.id
  · rw [add_product_mem o p t hm]
    exact h
  · rw [add_product_not_mem o p t hm]
    unfold Order.nodup_ids at h ⊢
    simp only [List.map_append, List.map_cons, List.map_nil]
    rw [List.nodup_append]
    refine ⟨h, List.nodup_singleton _, ?_⟩
    intro x hx hx'
    simp only [List.mem_singleton] at hx'
    subst hx'
    exact hm hx

theorem apply_update_nodup (o : Order) (ps : List Product) (t : Nat)
    (h : o.nodup_ids) : (apply_update o ps t).nodup_ids := by
  induction ps generalizing o with
  | nil => exact h
  | cons p ps ih =>
    show (apply_update (o.add_product p t) ps t).nodup_ids
    exact ih _ (add_product_nodup o p t h)

theorem make_order_products_ids {β : Type}
    (classify : β → Except String (List String)) (fresh : Nat → Nat) (k : Nat)
    (files : List β) (ps : List Product)
    (h : make_order_products classify fresh k files = .ok ps) :
    ps.map Product.id = (List.range files.length).map (fun j => fresh (k + j)) := by
  induction files generalizing k ps with
  | nil =>
    simp only [make_order_products] at h
    cases h
    simp
  | cons f fs ih =>
    simp only [make_order_products] at h
    cases hc : classify f with
    | error e => rw [hc] at h; simp at h
    | ok r =>
      rw [hc] at h
      cases hrec : make_order_products classify fresh (k + 1) fs with
      | error e => rw [hrec] at h; simp at h
      | ok ps2 =>
        rw [hrec] at h
        cases h
        have hih := ih (k + 1) ps2 hrec
        simp only [List.map_cons, hih, List.length_cons]
        rw [List.range_succ_eq_map]
        simp only [List.map_cons, List.map_map, Nat.add_zero]
        have hfun : ((fun j => fresh (k + j)) ∘ Nat.succ) = fun j => fresh (k + 1 + j) := by
          funext j
          show fresh (k + (j + 1)) = fresh (k + 1 + j)
          congr 1
          omega
        rw [hfun]
        rfl

theorem make_order_nodup {β : Type}
    (classify : β → Except String (List String)) (fresh : Nat → Nat)
    (oid now : Nat) (orders store2 : List Order) (files : List β) (o2 : Order)
    (hinj : Function.Injective fresh)
    (h : make_order classify fresh oid now orders files = (store2, .ok o2)) :
    o2.nodup_ids := by
  simp only [make_order] at h
  cases hmp : make_order_products classify fresh 0 files with
  | error e => rw [hmp] at h; simp at h
  | ok ps =>
    rw [hmp] at h
    have ho : o2 = Order.new oid ps now := by
      have := congrArg Prod.snd h
      simpa using this.symm
    subst ho
    show (ps.map Product.id).Nodup
    rw [make_order_products_ids classify fresh 0 files ps hmp]
    refine List.Nodup.map ?_ (List.nodup_range _)
    intro a b hab
    have := hinj hab
    omega

/-- Amended C9: the no-duplicate-product-id invariant holds for orders
constructed empty and for orders produced by the order-creation handler
(whose product ids are freshly generated, modelled by an injective
generator), and it is preserved by `add_product` and by the update fold;
it is NOT enforced when an order is explicitly pre-populated with an
initial product sequence containing duplicate ids. -/
theorem claim_nodup_amended {β : Type}
    (classify : β → Except String (List String)) (fresh : Nat → Nat)
    (oid now : Nat) (orders store2 : List Order) (files : List β)
    (o o2 : Order) (p : Product) (ps : List Product) (t : Nat) :
    (Order.new oid [] now).nodup_ids ∧
    (o.nodup_ids → (o.add_product p t).nodup_ids) ∧
    (o.nodup_ids → (apply_update o ps t).nodup_ids) ∧
    (Function.Injective fresh →
      make_order classify fresh oid now orders files = (store2, .ok o2) →
      o2.nodup_ids) :=
  ⟨List.nodup_nil,
   fun h => add_product_nodup o p t h,
   fun h => apply_update_nodup o ps t h,
   fun hinj h => make_order_nodup classify fresh oid now orders store2 files o2 hinj h⟩

/-- Witness for amended C9 at concrete orders, products, and a concrete
two-file creation request. -/
theorem claim_nodup_amended_witness :
    (Order.new 3 [] 7).nodup_ids ∧
    ((Order.mk 0 [⟨1, "a", 10, none⟩] 0 0).nodup_ids ∧
      ((Order.mk 0 [⟨1, "a", 10, none⟩] 0 0).add_product ⟨5, "x", 10, none⟩ 2).nodup_ids) ∧
    ((Order.mk 0 [⟨1, "a", 10, none⟩] 0 0).nodup_ids ∧
      (apply_update (Order.mk 0 [⟨1, "a", 10, none⟩] 0 0) [⟨5, "x", 10, none⟩] 2).nodup_ids) ∧
    (Function.Injective (fun k : Nat => k) ∧
      make_order classify_ok (fun k : Nat => k) 5 3 [] [1, 2] =
        ([Order.new 5 [InferenceImageProduct 0 (some ["cat"]),
           InferenceImageProduct 1 (some ["cat"])] 3],
         .ok (Order.new 5 [InferenceImageProduct 0 (some ["cat"]),
           InferenceImageProduct 1 (some ["cat"])] 3)) ∧
      (Order.new 5 [InferenceImageProduct 0 (some ["cat"]),
        InferenceImageProduct 1 (some ["cat"])] 3).nodup_ids) :=
  ⟨(claim_nodup_amended classify_ok (fun k : Nat => k) 3 7 [] [] ([] : List Nat)
      (Order.mk 0 [⟨1, "a", 10, none⟩] 0 0) (Order.mk 0 [] 0 0)
      ⟨5, "x", 10, none⟩ [⟨5, "x", 10, none⟩] 2).1,
   ⟨by decide,
    (claim_nodup_amended classify_ok (fun k : Nat => k) 3 7 [] [] ([] : List Nat)
      (Order.mk 0 [⟨1, "a", 10, none⟩] 0 0) (Order.mk 0 [] 0 0)
      ⟨5, "x", 10, none⟩ [⟨5, "x", 10, none⟩] 2).2.1 (by decide)⟩,
   ⟨by decide,
    (claim_nodup_amended classify_ok (fun k : Nat => k) 3 7 [] [] ([] : List Nat)
      (Order.mk 0 [⟨1, "a", 10, none⟩] 0 0) (Order.mk 0 [] 0 0)
      ⟨5, "x", 10, none⟩ [⟨5, "x", 10, none⟩] 2).2.2.1 (by decide)⟩,
   fun a b hab => hab,
   rfl,
   (claim_nodup_amended classify_ok (fun k : Nat => k) 5 3 []
      [Order.new 5 [InferenceImageProduct 0 (some ["cat"]),
        InferenceImageProduct 1 (some ["cat"])] 3]
      [1, 2]
      (Order.mk 0 [⟨1, "a", 10, none⟩] 0 0)
      (Order.new 5 [InferenceImageProduct 0 (some ["cat"]),
        InferenceImageProduct 1 (some ["cat"])] 3)
      ⟨5, "x", 10, none⟩ [⟨5, "x", 10, none⟩] 2).2.2.2
     (fun a b hab => hab) rfl⟩
